import Mathlib

/-!
Verification of the box-with-lid STL generator (`main.py`).

The geometric core is `create_full_box_with_lid`: it builds four axis-aligned
box primitives (base outer shell, base cavity, lid outer shell, lid cavity),
translates the cavities, and subtracts cavity from shell.  Every claim about
the geometry concerns the extents and translations of these primitives, so the
embedding records exactly that data.  Dimensions are modelled as exact
rationals (`ℚ`); the Python arithmetic is a handful of additions and one
division by two, all exact on the inputs of interest.

The run flow (`MyBaseController._default` and `create_tar_gz`) is embedded as
a pure function from the parsed arguments, the scratch directory path and a
float-rendering function to a `RunResult` value.
-/

/-- An axis-aligned box primitive: its extents and the translation applied to
its origin-centered position (`trimesh.creation.box` produces a box centered
at the origin). -/
structure Box3 where
  extents : ℚ × ℚ × ℚ
  translation : ℚ × ℚ × ℚ
deriving DecidableEq

/-- `trimesh.creation.box(extents)`: a box with the given extents, centered at
the origin. -/
def trimesh_creation_box (e : ℚ × ℚ × ℚ) : Box3 :=
  ⟨e, (0, 0, 0)⟩

/-- `mesh.apply_translation(t)`: shift the mesh by the vector `t`. -/
def Box3.apply_translation (b : Box3) (t : ℚ × ℚ × ℚ) : Box3 :=
  ⟨b.extents, (b.translation.1 + t.1, b.translation.2.1 + t.2.1, b.translation.2.2 + t.2.2)⟩

/-- The four box primitives constructed by `create_full_box_with_lid`, in the
state they are in right before the two boolean subtractions
(`base_outer.difference(base_inner)` and `lid_outer.difference(lid_inner)`). -/
structure BoxGeometry where
  base_outer : Box3
  base_inner : Box3
  lid_outer : Box3
  lid_inner : Box3
deriving DecidableEq

/-- The dimension arithmetic of `create_full_box_with_lid` (main.py lines
74-110), transcribed statement by statement. -/
def create_full_box_with_lid (internal_length internal_width internal_height
    wall_thickness lid_overlap lid_height : ℚ) : BoxGeometry :=
  let external_length := internal_length + 2 * wall_thickness
  let external_width := internal_width + 2 * wall_thickness
  let base_height := internal_height + wall_thickness
  let base_outer := trimesh_creation_box (external_length, external_width, base_height)
  let base_inner := (trimesh_creation_box
      (internal_length, internal_width, internal_height)).apply_translation
      (wall_thickness - 2, wall_thickness - 2, wall_thickness / 2)
  let lid_external_length := external_length + 2 * lid_overlap
  let lid_external_width := external_width + 2 * lid_overlap
  let lid_total_height := lid_height
  let lid_outer := trimesh_creation_box
      (lid_external_length, lid_external_width, lid_total_height)
  let lid_inner_length := external_length + 0.15
  let lid_inner_width := external_width + 0.15
  let lid_inner_height := lid_height - wall_thickness / 2
  let lid_inner := (trimesh_creation_box
      (lid_inner_length, lid_inner_width, lid_inner_height)).apply_translation
      (lid_overlap - 2, lid_overlap - 2, wall_thickness / 2)
  ⟨base_outer, base_inner, lid_outer, lid_inner⟩

/-- The inner box of a subtraction is horizontally centered inside the outer
box exactly when their center translations agree on both horizontal axes
(both primitives are created centered at the origin, so their centers are
their translations). -/
def horizontallyCentered (outer inner : Box3) : Prop :=
  inner.translation.1 = outer.translation.1 ∧ inner.translation.2.1 = outer.translation.2.1

/-- C1: for internal length `L > 0`, width `W > 0` and any wall thickness `T`,
the lid cavity's horizontal extents exceed the base's external horizontal
extents by exactly the fixed clearance `0.15`, hence the lid cavity is never
horizontally smaller than the base's external envelope. -/
theorem lid_cavity_exceeds_base_envelope (L W H T O LH : ℚ)
    (hL : 0 < L) (hW : 0 < W) :
    (create_full_box_with_lid L W H T O LH).lid_inner.extents.1 = (L + 2 * T) + 0.15 ∧
    (create_full_box_with_lid L W H T O LH).lid_inner.extents.2.1 = (W + 2 * T) + 0.15 ∧
    (create_full_box_with_lid L W H T O LH).base_outer.extents.1 <
      (create_full_box_with_lid L W H T O LH).lid_inner.extents.1 ∧
    (create_full_box_with_lid L W H T O LH).base_outer.extents.2.1 <
      (create_full_box_with_lid L W H T O LH).lid_inner.extents.2.1 := by
  refine ⟨rfl, rfl, ?_, ?_⟩ <;>
    simp only [create_full_box_with_lid, trimesh_creation_box, Box3.apply_translation] <;>
    norm_num

/-- Witness for C1 at `L = 100`, `W = 80`, `H = 50`, `T = 2`, `O = 2`, `LH = 5`. -/
theorem lid_cavity_exceeds_base_envelope_witness :
    (0 : ℚ) < 100 ∧ (0 : ℚ) < 80 ∧
    (create_full_box_with_lid 100 80 50 2 2 5).lid_inner.extents.1 = (100 + 2 * 2) + 0.15 := by
  exact ⟨by norm_num, by norm_num,
    (lid_cavity_exceeds_base_envelope 100 80 50 2 2 5 (by norm_num) (by norm_num)).1⟩

/-- C2: for positive parameters the base outer box has extents
`(L+2T, W+2T, H+T)` and the lid outer box has extents `(L+2T+2O, W+2T+2O, LH)`;
at `L=100, W=80, H=50` with defaults `T=2, O=2, LH=5` these are `(104, 84, 52)`
and `(108, 88, 5)`. -/
theorem outer_envelope_dimensions (L W H T O LH : ℚ)
    (hL : 0 < L) (hW : 0 < W) (hH : 0 < H) (hT : 0 < T) (hO : 0 < O) (hLH : 0 < LH) :
    (create_full_box_with_lid L W H T O LH).base_outer.extents = (L + 2 * T, W + 2 * T, H + T) ∧
    (create_full_box_with_lid L W H T O LH).lid_outer.extents =
      (L + 2 * T + 2 * O, W + 2 * T + 2 * O, LH) ∧
    (create_full_box_with_lid 100 80 50 2 2 5).base_outer.extents = (104, 84, 52) ∧
    (create_full_box_with_lid 100 80 50 2 2 5).lid_outer.extents = (108, 88, 5) := by
  refine ⟨rfl, rfl, ?_, ?_⟩ <;>
    simp only [create_full_box_with_lid, trimesh_creation_box] <;> norm_num

/-- Witness for C2 at `L = 100`, `W = 80`, `H = 50`, `T = 2`, `O = 2`, `LH = 5`. -/
theorem outer_envelope_dimensions_witness :
    (0 : ℚ) < 100 ∧
    (create_full_box_with_lid 100 80 50 2 2 5).base_outer.extents = (104, 84, 52) ∧
    (create_full_box_with_lid 100 80 50 2 2 5).lid_outer.extents = (108, 88, 5) := by
  have h := outer_envelope_dimensions 100 80 50 2 2 5 (by norm_num) (by norm_num)
    (by norm_num) (by norm_num) (by norm_num) (by norm_num)
  exact ⟨by norm_num, h.2.2.1, h.2.2.2⟩

/-- C3: for all inputs the base inner cavity has extents `(L, W, H)` and is
translated by `(T−2, T−2, T/2)` before the subtraction; in particular at
`T = 0` the applied translation is `(−2, −2, 0)`. -/
theorem base_cavity_extents_and_translation (L W H T O LH : ℚ) :
    (create_full_box_with_lid L W H T O LH).base_inner.extents = (L, W, H) ∧
    (create_full_box_with_lid L W H T O LH).base_inner.translation = (T - 2, T - 2, T / 2) ∧
    (create_full_box_with_lid L W H 0 O LH).base_inner.translation = (-2, -2, 0) := by
  refine ⟨rfl, ?_, ?_⟩ <;>
    simp only [create_full_box_with_lid, trimesh_creation_box, Box3.apply_translation] <;>
    norm_num

/-- C4: for all inputs the lid inner cavity has extents
`(L+2T+0.15, W+2T+0.15, LH−T/2)` and is translated by `(O−2, O−2, T/2)` before
being subtracted from the lid outer box. -/
theorem lid_cavity_extents_and_translation (L W H T O LH : ℚ) :
    (create_full_box_with_lid L W H T O LH).lid_inner.extents =
      (L + 2 * T + 0.15, W + 2 * T + 0.15, LH - T / 2) ∧
    (create_full_box_with_lid L W H T O LH).lid_inner.translation = (O - 2, O - 2, T / 2) := by
  constructor <;>
    simp only [create_full_box_with_lid, trimesh_creation_box, Box3.apply_translation] <;>
    norm_num

/-- C6: the base cavity is horizontally centered in the base outer box exactly
when `T = 2`, and the lid cavity is horizontally centered in the lid outer box
exactly when `O = 2`; for any other value the horizontal translation component
(`T−2`, resp. `O−2`) is nonzero. -/
theorem cavity_centered_iff_default (L W H T O LH : ℚ) :
    (horizontallyCentered (create_full_box_with_lid L W H T O LH).base_outer
      (create_full_box_with_lid L W H T O LH).base_inner ↔ T = 2) ∧
    (horizontallyCentered (create_full_box_with_lid L W H T O LH).lid_outer
      (create_full_box_with_lid L W H T O LH).lid_inner ↔ O = 2) ∧
    (T ≠ 2 → (create_full_box_with_lid L W H T O LH).base_inner.translation.1 ≠ 0) ∧
    (O ≠ 2 → (create_full_box_with_lid L W H T O LH).lid_inner.translation.1 ≠ 0) := by
  simp only [create_full_box_with_lid, trimesh_creation_box, Box3.apply_translation,
    horizontallyCentered, zero_add]
  refine ⟨⟨fun h => by linarith [h.1], fun h => by constructor <;> simp [h]⟩,
    ⟨fun h => by linarith [h.1], fun h => by constructor <;> simp [h]⟩,
    fun h => ?_, fun h => ?_⟩ <;>
    · intro h0
      exact h (by linarith)

/-! ## The run flow: `MyBaseController._default` and `create_tar_gz`

File names, the manifest and archive entry names are modelled as strings.
Python renders the float dimensions into file names and the manifest via
f-strings; that rendering is abstracted as a function `fmt : ℚ → String`.
`os.path.join` is modelled for the relative, non-empty path segments it is
applied to here, and `os.path.basename` as the part of the path after the
last `'/'`. -/

/-- The characters after the last `'/'` of a path (all of it when there is
no `'/'`): the behaviour of `os.path.basename` on the paths used here. -/
def basenameChars : List Char → List Char
  | [] => []
  | c :: cs => if c = '/' ∨ '/' ∈ cs then basenameChars cs else c :: cs

/-- `os.path.basename`. -/
def os_path_basename (s : String) : String :=
  ⟨basenameChars s.data⟩

/-- `os.path.join(dir, name)` for a relative `name`: `dir + "/" + name`. -/
def os_path_join (dir name : String) : String :=
  dir ++ "/" ++ name

/-- `create_tar_gz` adds each file under `arcname=os.path.basename(file)`;
the archive's entry names are the basenames of the given paths. -/
def create_tar_gz (files : List String) : List String :=
  files.map os_path_basename

/-- The base mesh file name `box_base_{l}x{w}x{h}.stl`. -/
def base_filename (fmt : ℚ → String) (l w h : ℚ) : String :=
  "box_base_" ++ fmt l ++ "x" ++ fmt w ++ "x" ++ fmt h ++ ".stl"

/-- The lid mesh file name `box_lid_{l}x{w}x{h}.stl`. -/
def lid_filename (fmt : ℚ → String) (l w h : ℚ) : String :=
  "box_lid_" ++ fmt l ++ "x" ++ fmt w ++ "x" ++ fmt h ++ ".stl"

/-- The archive base name `box_{l}x{w}x{h}`. -/
def file_basename (fmt : ℚ → String) (l w h : ℚ) : String :=
  "box_" ++ fmt l ++ "x" ++ fmt w ++ "x" ++ fmt h

/-- The `README.txt` manifest content: the three `readme.write` calls of
`_default` (main.py lines 52-54), concatenated. -/
def readmeContent (l w h t o lh : String) : String :=
  "Box and Lid STL files created with specified dimensions.\n" ++
  ("Length: " ++ l ++ ", Width: " ++ w ++ ", Height: " ++ h ++ "\n") ++
  ("Wall Thickness: " ++ t ++ ", Lid Overlap: " ++ o ++ ", Lid Height: " ++ lh ++ "\n")

/-- Outcome of one `_default` invocation: either the early return with the
instructional message, or a completed run described by the constructed
geometry, the tarball path, the archive entry names, the manifest text and
the final locations of the three moved files. -/
inductive RunResult where
  | aborted (message : String)
  | completed (geometry : BoxGeometry) (archivePath : String)
      (archiveEntries : List String) (manifest : String) (movedFiles : List String)
deriving DecidableEq

/-- The manifest text of a completed run. -/
def RunResult.manifest? : RunResult → Option String
  | .aborted _ => none
  | .completed _ _ _ m _ => some m

/-- The archive entry names of a completed run. -/
def RunResult.archiveEntries? : RunResult → Option (List String)
  | .aborted _ => none
  | .completed _ _ es _ _ => some es

/-- The tarball path of a completed run. -/
def RunResult.archivePath? : RunResult → Option String
  | .aborted _ => none
  | .completed _ p _ _ _ => some p

/-- Every path the run leaves behind (the tarball plus the moved files);
an aborted run leaves nothing. -/
def RunResult.producedOutputs : RunResult → List String
  | .aborted _ => []
  | .completed _ p _ _ moved => p :: moved

/-- `MyBaseController._default` (main.py lines 22-65): abort when a required
dimension is missing, otherwise build the geometry, the three files in the
scratch directory, the manifest, the tarball in `archive/`, and move the
three files into `archive/`. -/
def runDefault (tmpdirname : String) (length width height : Option ℚ)
    (thickness overlap lid_height : ℚ) (fmt : ℚ → String) : RunResult :=
  match length, width, height with
  | some l, some w, some h =>
    let geometry := create_full_box_with_lid l w h thickness overlap lid_height
    let files_to_include := [
      os_path_join tmpdirname (base_filename fmt l w h),
      os_path_join tmpdirname (lid_filename fmt l w h),
      os_path_join tmpdirname "README.txt"]
    let manifest := readmeContent (fmt l) (fmt w) (fmt h)
      (fmt thickness) (fmt overlap) (fmt lid_height)
    let output_filename := os_path_join "archive" (file_basename fmt l w h ++ ".tar.gz")
    RunResult.completed geometry output_filename (create_tar_gz files_to_include) manifest
      (files_to_include.map fun f => os_path_join "archive" (os_path_basename f))
  | _, _, _ => RunResult.aborted "Please provide the internal length, width, and height of the box."

theorem basenameChars_append_slash (d n : List Char) :
    basenameChars (d ++ '/' :: n) = basenameChars n := by
  induction d with
  | nil => simp [basenameChars]
  | cons c cs ih =>
      have hm : ('/' : Char) ∈ cs ++ '/' :: n := by simp
      simp [basenameChars, hm, ih]

theorem basenameChars_eq_self (n : List Char) (h : ('/' : Char) ∉ n) :
    basenameChars n = n := by
  cases n with
  | nil => rfl
  | cons c cs =>
      simp only [List.mem_cons, not_or] at h
      have h1 : ¬ c = '/' := fun hc => h.1 hc.symm
      simp [basenameChars, h1, h.2]

theorem os_path_join_data (dir name : String) :
    (os_path_join dir name).data = dir.data ++ '/' :: name.data := by
  simp [os_path_join, String.data_append]

theorem os_path_basename_join (dir name : String) (h : ('/' : Char) ∉ name.data) :
    os_path_basename (os_path_join dir name) = name := by
  apply String.ext
  show basenameChars (os_path_join dir name).data = name.data
  rw [os_path_join_data, basenameChars_append_slash, basenameChars_eq_self _ h]

theorem no_slash_append {s t : String} (hs : ('/' : Char) ∉ s.data)
    (ht : ('/' : Char) ∉ t.data) : ('/' : Char) ∉ (s ++ t).data := by
  rw [String.data_append]
  simp only [List.mem_append, not_or]
  exact ⟨hs, ht⟩

theorem no_slash_base_filename {fmt : ℚ → String} {l w h : ℚ}
    (hl : ('/' : Char) ∉ (fmt l).data) (hw : ('/' : Char) ∉ (fmt w).data)
    (hh : ('/' : Char) ∉ (fmt h).data) :
    ('/' : Char) ∉ (base_filename fmt l w h).data := by
  show ('/' : Char) ∉ ("box_base_" ++ fmt l ++ "x" ++ fmt w ++ "x" ++ fmt h ++ ".stl").data
  exact no_slash_append (no_slash_append (no_slash_append (no_slash_append
    (no_slash_append (no_slash_append (by decide) hl) (by decide)) hw) (by decide)) hh)
    (by decide)

theorem no_slash_lid_filename {fmt : ℚ → String} {l w h : ℚ}
    (hl : ('/' : Char) ∉ (fmt l).data) (hw : ('/' : Char) ∉ (fmt w).data)
    (hh : ('/' : Char) ∉ (fmt h).data) :
    ('/' : Char) ∉ (lid_filename fmt l w h).data := by
  show ('/' : Char) ∉ ("box_lid_" ++ fmt l ++ "x" ++ fmt w ++ "x" ++ fmt h ++ ".stl").data
  exact no_slash_append (no_slash_append (no_slash_append (no_slash_append
    (no_slash_append (no_slash_append (by decide) hl) (by decide)) hw) (by decide)) hh)
    (by decide)

theorem runDefault_archiveEntries (tmpdirname : String) (l w h T O LH : ℚ)
    (fmt : ℚ → String) (hl : ('/' : Char) ∉ (fmt l).data)
    (hw : ('/' : Char) ∉ (fmt w).data) (hh : ('/' : Char) ∉ (fmt h).data) :
    (runDefault tmpdirname (some l) (some w) (some h) T O LH fmt).archiveEntries? =
      some [base_filename fmt l w h, lid_filename fmt l w h, "README.txt"] := by
  have h1 : (runDefault tmpdirname (some l) (some w) (some h) T O LH fmt).archiveEntries? =
      some [os_path_basename (os_path_join tmpdirname (base_filename fmt l w h)),
        os_path_basename (os_path_join tmpdirname (lid_filename fmt l w h)),
        os_path_basename (os_path_join tmpdirname "README.txt")] := rfl
  rw [h1, os_path_basename_join _ _ (no_slash_base_filename hl hw hh),
    os_path_basename_join _ _ (no_slash_lid_filename hl hw hh),
    os_path_basename_join _ _ (by decide : ('/' : Char) ∉ ("README.txt" : String).data)]

/-- A stand-in for Python's rendering of the example run's float parameters
(`str(100.0) = "100.0"` and so on), used to instantiate theorems about an
abstract rendering function at a concrete run. -/
def sampleFmt : ℚ → String := fun q =>
  if q = 100 then "100.0" else if q = 80 then "80.0" else if q = 50 then "50.0"
  else if q = 2 then "2.0" else "5.0"

/-- C5: when length, width or height is missing, the run returns with exactly
the instructional message and produces no output of any kind. -/
theorem missing_dimension_aborts (tmpdirname : String) (length width height : Option ℚ)
    (thickness overlap lid_height : ℚ) (fmt : ℚ → String)
    (hmiss : length = none ∨ width = none ∨ height = none) :
    runDefault tmpdirname length width height thickness overlap lid_height fmt =
      RunResult.aborted "Please provide the internal length, width, and height of the box." ∧
    (runDefault tmpdirname length width height thickness overlap lid_height
      fmt).producedOutputs = [] := by
  rcases hmiss with hr | hr | hr
  · subst hr; cases width <;> cases height <;> exact ⟨rfl, rfl⟩
  · subst hr; cases length <;> cases height <;> exact ⟨rfl, rfl⟩
  · subst hr; cases length <;> cases width <;> exact ⟨rfl, rfl⟩

/-- Witness for C5: the run with a missing length. -/
theorem missing_dimension_aborts_witness :
    ((none : Option ℚ) = none ∨ (some (80 : ℚ)) = none ∨ (some (50 : ℚ)) = none) ∧
    runDefault "/tmp/scratch" none (some 80) (some 50) 2 2 5 sampleFmt =
      RunResult.aborted "Please provide the internal length, width, and height of the box." := by
  have hmiss : (none : Option ℚ) = none ∨ (some (80 : ℚ)) = none ∨ (some (50 : ℚ)) = none :=
    Or.inl rfl
  exact ⟨hmiss,
    (missing_dimension_aborts "/tmp/scratch" none (some 80) (some 50) 2 2 5 sampleFmt hmiss).1⟩

/-- C7: a successful run's archive is `archive/box_{L}x{W}x{H}.tar.gz` and
contains exactly three entries: `box_base_{L}x{W}x{H}.stl`,
`box_lid_{L}x{W}x{H}.stl` and `README.txt`, where the values in the names are
the renderings of the raw numeric inputs. -/
theorem archive_contains_three_entries (tmpdirname : String) (l w h T O LH : ℚ)
    (fmt : ℚ → String) (hl : ('/' : Char) ∉ (fmt l).data)
    (hw : ('/' : Char) ∉ (fmt w).data) (hh : ('/' : Char) ∉ (fmt h).data) :
    (runDefault tmpdirname (some l) (some w) (some h) T O LH fmt).archiveEntries? =
      some [base_filename fmt l w h, lid_filename fmt l w h, "README.txt"] ∧
    (runDefault tmpdirname (some l) (some w) (some h) T O LH fmt).archivePath? =
      some (os_path_join "archive" (file_basename fmt l w h ++ ".tar.gz")) :=
  ⟨runDefault_archiveEntries tmpdirname l w h T O LH fmt hl hw hh, rfl⟩

/-- Witness for C7 at the example run `L=100, W=80, H=50, T=2, O=2, LH=5`. -/
theorem archive_contains_three_entries_witness :
    ('/' : Char) ∉ (sampleFmt 100).data ∧
    (runDefault "/tmp/scratch" (some 100) (some 80) (some 50) 2 2 5
      sampleFmt).archiveEntries? =
      some [base_filename sampleFmt 100 80 50, lid_filename sampleFmt 100 80 50,
        "README.txt"] := by
  exact ⟨by decide, (archive_contains_three_entries "/tmp/scratch" 100 80 50 2 2 5
    sampleFmt (by decide) (by decide) (by decide)).1⟩

/-- C10: the archive entry names do not depend on where the scratch directory
was created, and none of them has a directory component (no `'/'` occurs in
any entry name): every entry extracts at the top level. -/
theorem archive_entries_independent_of_scratch_dir (t1 t2 : String) (l w h T O LH : ℚ)
    (fmt : ℚ → String) (hl : ('/' : Char) ∉ (fmt l).data)
    (hw : ('/' : Char) ∉ (fmt w).data) (hh : ('/' : Char) ∉ (fmt h).data) :
    (runDefault t1 (some l) (some w) (some h) T O LH fmt).archiveEntries? =
      (runDefault t2 (some l) (some w) (some h) T O LH fmt).archiveEntries? ∧
    ∀ e ∈ ((runDefault t1 (some l) (some w) (some h) T O LH fmt).archiveEntries?).getD [],
      ('/' : Char) ∉ e.data := by
  constructor
  · rw [runDefault_archiveEntries t1 l w h T O LH fmt hl hw hh,
      runDefault_archiveEntries t2 l w h T O LH fmt hl hw hh]
  · rw [runDefault_archiveEntries t1 l w h T O LH fmt hl hw hh]
    intro e he
    simp only [Option.getD_some, List.mem_cons, List.not_mem_nil, or_false] at he
    rcases he with rfl | rfl | rfl
    · exact no_slash_base_filename hl hw hh
    · exact no_slash_lid_filename hl hw hh
    · decide

/-- Witness for C10: two different scratch directories for the example run. -/
theorem archive_entries_independent_of_scratch_dir_witness :
    ('/' : Char) ∉ (sampleFmt 100).data ∧
    (runDefault "/tmp/scratch-a" (some 100) (some 80) (some 50) 2 2 5
      sampleFmt).archiveEntries? =
    (runDefault "/var/scratch-b" (some 100) (some 80) (some 50) 2 2 5
      sampleFmt).archiveEntries? := by
  exact ⟨by decide, (archive_entries_independent_of_scratch_dir "/tmp/scratch-a"
    "/var/scratch-b" 100 80 50 2 2 5 sampleFmt (by decide) (by decide) (by decide)).1⟩

/-- C9: the manifest text of a run is a function of the six parameters alone:
it is identical across runs with identical parameters, whatever scratch
directory each run was given. -/
theorem manifest_deterministic (t1 t2 : String) (l w h T O LH : ℚ) (fmt : ℚ → String) :
    (runDefault t1 (some l) (some w) (some h) T O LH fmt).manifest? =
      (runDefault t2 (some l) (some w) (some h) T O LH fmt).manifest? ∧
    (runDefault t1 (some l) (some w) (some h) T O LH fmt).manifest? =
      some (readmeContent (fmt l) (fmt w) (fmt h) (fmt T) (fmt O) (fmt LH)) :=
  ⟨rfl, rfl⟩

set_option maxRecDepth 40000 in
/-- Counterexample to C8 at the example run `L=100, W=80, H=50, T=2, O=2,
LH=5`: the claim says the manifest records three derived parameters, but no
derived parameter of this run appears in the manifest at all.  The derived
parameters are the external length `104.0`, external width `84.0`, base
height `52.0`, lid external length `108.0`, lid external width `88.0` and the
lid cavity dimensions `104.15`, `84.15`, `4.0`; every one of their decimal
renderings contains the digit `'4'` or one of the digit runs `"52"`, `"108"`,
`"88"`, and none of those occurs in the manifest text. -/
theorem manifest_omits_derived_parameters :
    ('4' : Char) ∉ (readmeContent "100.0" "80.0" "50.0" "2.0" "2.0" "5.0").data ∧
    ¬ ([ '5', '2' ] <:+: (readmeContent "100.0" "80.0" "50.0" "2.0" "2.0" "5.0").data) ∧
    ¬ ([ '1', '0', '8' ] <:+: (readmeContent "100.0" "80.0" "50.0" "2.0" "2.0" "5.0").data) ∧
    ¬ ([ '8', '8' ] <:+: (readmeContent "100.0" "80.0" "50.0" "2.0" "2.0" "5.0").data) := by
  refine ⟨by decide, by decide, by decide, by decide⟩

/-- C8 (amended): the manifest records the three input dimensions (length,
width, height) and the three further input parameters (wall thickness, lid
overlap, lid height) — six labelled values; each `Label: value` segment
occurs verbatim in the manifest text. -/
theorem manifest_records_six_parameters (l w h t o lh : String) :
    ("Length: " ++ l).data <:+: (readmeContent l w h t o lh).data ∧
    (", Width: " ++ w).data <:+: (readmeContent l w h t o lh).data ∧
    (", Height: " ++ h).data <:+: (readmeContent l w h t o lh).data ∧
    ("Wall Thickness: " ++ t).data <:+: (readmeContent l w h t o lh).data ∧
    (", Lid Overlap: " ++ o).data <:+: (readmeContent l w h t o lh).data ∧
    (", Lid Height: " ++ lh).data <:+: (readmeContent l w h t o lh).data := by
  refine ⟨⟨("Box and Lid STL files created with specified dimensions.\n" : String).data,
      ((", Width: " ++ w ++ ", Height: " ++ h ++ "\n" ++
        ("Wall Thickness: " ++ t ++ ", Lid Overlap: " ++ o ++ ", Lid Height: " ++ lh ++ "\n")
        : String)).data, ?_⟩,
    ⟨(("Box and Lid STL files created with specified dimensions.\n" ++ "Length: " ++ l
        : String)).data,
      ((", Height: " ++ h ++ "\n" ++
        ("Wall Thickness: " ++ t ++ ", Lid Overlap: " ++ o ++ ", Lid Height: " ++ lh ++ "\n")
        : String)).data, ?_⟩,
    ⟨(("Box and Lid STL files created with specified dimensions.\n" ++ "Length: " ++ l ++
        ", Width: " ++ w : String)).data,
      (("\n" ++ ("Wall Thickness: " ++ t ++ ", Lid Overlap: " ++ o ++ ", Lid Height: " ++
        lh ++ "\n") : String)).data, ?_⟩,
    ⟨(("Box and Lid STL files created with specified dimensions.\n" ++
        ("Length: " ++ l ++ ", Width: " ++ w ++ ", Height: " ++ h ++ "\n") : String)).data,
      ((", Lid Overlap: " ++ o ++ ", Lid Height: " ++ lh ++ "\n" : String)).data, ?_⟩,
    ⟨(("Box and Lid STL files created with specified dimensions.\n" ++
        ("Length: " ++ l ++ ", Width: " ++ w ++ ", Height: " ++ h ++ "\n") ++
        "Wall Thickness: " ++ t : String)).data,
      ((", Lid Height: " ++ lh ++ "\n" : String)).data, ?_⟩,
    ⟨(("Box and Lid STL files created with specified dimensions.\n" ++
        ("Length: " ++ l ++ ", Width: " ++ w ++ ", Height: " ++ h ++ "\n") ++
        "Wall Thickness: " ++ t ++ ", Lid Overlap: " ++ o : String)).data,
      (("\n" : String)).data, ?_⟩⟩ <;>
    simp [readmeContent, String.data_append, List.append_assoc]
